import Mathlib

/-!
# CeylonSoftwareHub server — verification of the order/payment lifecycle

A shallow embedding of the Express route handlers of the CeylonSoftwareHub
backend.  The document store is modelled as a partial map from identifiers to
documents; each route handler becomes a pure function from its request data
(and the results of its external collaborators — payment gateway, object
storage, mail transport, passed in as function arguments) to an HTTP response
together with the updated store and a trace of collaborator calls.

Monetary amounts, prices, quantities and rating averages are JavaScript
numbers in the source; they are modelled as rationals.
-/

namespace CeylonHub

/-- Payment status of an order (`pending` | `paid` | `failed`). -/
inductive PaymentStatus
  | pending
  | paid
  | failed
deriving DecidableEq, Repr

/-- Order status (`pending` | `processing` | `completed`). -/
inductive OrderStatus
  | pending
  | processing
  | completed
deriving DecidableEq, Repr

/-- Payment method of an order (`card` | `bank_transfer`). -/
inductive PaymentMethod
  | card
  | bank_transfer
deriving DecidableEq, Repr

/-- A captured line item of an order: product reference, captured name and
price at order time, requested quantity (src/routes/orders.js, order
creation). -/
structure OrderItem where
  product : Nat
  name : String
  price : ℚ
  quantity : ℚ
deriving DecidableEq, Repr

/-- The uploaded payment-slip reference stored on an order. -/
structure PaymentSlip where
  url : String
  uploadedAt : Nat
deriving DecidableEq, Repr

/-- An order document, following the fields the route handlers read and
write: owner or guest info, line items, total, payment method and statuses,
optional slip, optional gateway intent id, order number, admin notes and
fulfillment timestamps. -/
structure Order where
  id : Nat
  user : Option Nat
  guestInfo : Option String
  items : List OrderItem
  totalAmount : ℚ
  paymentMethod : PaymentMethod
  paymentStatus : PaymentStatus
  orderStatus : OrderStatus
  paymentSlip : Option PaymentSlip
  stripePaymentIntent : Option String
  orderNumber : String
  notes : Option String
  processedAt : Option Nat
  completedAt : Option Nat
deriving DecidableEq, Repr

/-- A product document: the fields the order-creation and rating handlers
use (src/unnamed/part_002, productSchema). -/
structure Product where
  id : Nat
  name : String
  price : ℚ
  isActive : Bool
  ratingAverage : ℚ
  ratingCount : Nat
deriving DecidableEq, Repr

/-- The order collection of the document store: `findById` is application. -/
abbrev Db := Nat → Option Order

/-- `order.save()`: single-document write, keyed by the document's id. -/
def dbSave (db : Db) (o : Order) : Db :=
  fun i => if i = o.id then some o else db i

/-- The product collection of the document store. -/
abbrev ProductDb := Nat → Option Product

/-- `product.save()`: single-document write, keyed by the document's id. -/
def pdbSave (pdb : ProductDb) (p : Product) : ProductDb :=
  fun i => if i = p.id then some p else pdb i

/-- An HTTP response as the claims observe it: status code plus the response
body fields the payment routes return. -/
structure HttpResponse where
  status : Nat
  success : Option Bool := none
  clientSecret : Option String := none
  paymentIntentId : Option String := none
deriving DecidableEq, Repr

/-! ## Payment gateway types (src/unnamed/part_001) -/

/-- The request the handler passes to `stripe.paymentIntents.create`:
amount in minor units, currency, and the order metadata attached. -/
structure IntentRequest where
  amount : Int
  currency : String
  metadataOrderId : Nat
  metadataOrderNumber : String
deriving DecidableEq, Repr

/-- A gateway payment intent as the handlers read it: id, client secret,
status string, and the `metadata.orderId` it carries. -/
structure PaymentIntent where
  id : String
  clientSecret : String
  status : String
  metadataOrderId : Nat
deriving DecidableEq, Repr

/-- Result of the create-payment-intent route: response, updated order
store, and the list of gateway create calls made. -/
structure CreateIntentResult where
  response : HttpResponse
  db : Db
  gatewayCalls : List IntentRequest

/-- The intent-creation request built for an order:
`Math.round(order.totalAmount * 100)` minor units of `usd`, with the
order's id and order number as metadata (src/unnamed/part_001 lines
31–38). -/
def intentRequestFor (order : Order) : IntentRequest :=
  ⟨round (order.totalAmount * 100), "usd", order.id, order.orderNumber⟩

/-- `POST /payments/create-payment-intent` (src/unnamed/part_001 lines
9–52).  Looks up the order, rejects a missing order with 404 and a foreign
order with 403 (a guest order, whose `user` is null, makes
`order.user.toString()` throw, caught as 500), then asks the gateway for an
intent of `Math.round(order.totalAmount * 100)` minor units with the order
id and number as metadata, stores the intent id on the order and responds
with the client secret and intent id.  A gateway error is caught and
returned as 500 with no store write. -/
def createPaymentIntent (gateway : IntentRequest → Except String PaymentIntent)
    (userId : Nat) (orderId : Nat) (db : Db) : CreateIntentResult :=
  match db orderId with
  | none => ⟨{ status := 404 }, db, []⟩
  | some order =>
    match order.user with
    | none => ⟨{ status := 500 }, db, []⟩
    | some uid =>
      if uid ≠ userId then ⟨{ status := 403 }, db, []⟩
      else
        let req : IntentRequest := intentRequestFor order
        match gateway req with
        | Except.error _ => ⟨{ status := 500 }, db, [req]⟩
        | Except.ok intent =>
          let order2 := { order with stripePaymentIntent := some intent.id }
          ⟨{ status := 200, clientSecret := some intent.clientSecret,
             paymentIntentId := some intent.id }, dbSave db order2, [req]⟩

/-- Result of the confirm-payment route: response, updated order store, and
the list of gateway retrieve calls made. -/
structure ConfirmResult where
  response : HttpResponse
  db : Db
  retrieveCalls : List String

/-- The body of `POST /payments/confirm-payment` (src/unnamed/part_001
lines 55–74) with a gateway client in scope.  Retrieves the intent from the
gateway; when its status is `succeeded` and an order matches its
`metadata.orderId`, marks that order paid/processing; in every non-throwing
path it responds `{success: true}`.  A gateway error is caught and returned
as 500 with no store write.  Note: in the shipped module the identifier
`stripe` is never bound at module scope (a client is created only inside
the create-payment-intent handler), so the real route's `retrieve` throws
on every call — the always-failing `retrieve` instance; `confirmPaymentRoute`
below is the faithful model of the route as shipped. -/
def confirmPayment (retrieve : String → Except String PaymentIntent)
    (intentId : String) (db : Db) : ConfirmResult :=
  match retrieve intentId with
  | Except.error _ => ⟨{ status := 500 }, db, [intentId]⟩
  | Except.ok intent =>
    if intent.status = "succeeded" then
      match db intent.metadataOrderId with
      | some order =>
        ⟨{ status := 200, success := some true },
         dbSave db { order with paymentStatus := PaymentStatus.paid,
                                orderStatus := OrderStatus.processing },
         [intentId]⟩
      | none => ⟨{ status := 200, success := some true }, db, [intentId]⟩
    else ⟨{ status := 200, success := some true }, db, [intentId]⟩

/-- `POST /payments/confirm-payment` as shipped (src/unnamed/part_001 lines
55–74): `stripe` is unbound at module scope, so line 59's
`stripe.paymentIntents.retrieve(paymentIntentId)` throws a ReferenceError
on every call before any gateway request is made; the catch answers 500
with the error message, no retrieve call in the trace and no store
write — the success path of the handler body is unreachable. -/
def confirmPaymentRoute (_intentId : String) (db : Db) : ConfirmResult :=
  ⟨{ status := 500 }, db, []⟩

/-! ## Webhook (src/unnamed/part_001 lines 77–101) -/

/-- A webhook event: its type string and the payment intent it reports
(`event.data.object`). -/
structure WebhookEvent where
  type : String
  intent : PaymentIntent
deriving DecidableEq, Repr

/-- Modelled from the spec: the gateway adapter's webhook verification
(`stripe.webhooks.constructEvent`, library code not among the sources)
computes a signature over the raw payload with the signing secret and
compares it with the header-carried one.  The signature function itself is
abstracted as a concrete injection of secret and payload. -/
def expectedSignature (secret : String) (body : WebhookEvent) : String :=
  secret ++ ":" ++ body.type ++ ":" ++ body.intent.id

/-- Modelled from the spec: `stripe.webhooks.constructEvent` rejects a
missing or mismatched signature with an authentication error and otherwise
yields the parsed event. -/
def constructEvent (secret : String) (body : WebhookEvent)
    (sig : Option String) : Except String WebhookEvent :=
  match sig with
  | none => Except.error "missing stripe-signature header"
  | some s =>
    if s = expectedSignature secret body then Except.ok body
    else Except.error "signature mismatch"

/-- The body of `POST /payments/webhook` (src/unnamed/part_001 lines
77–101) with a gateway client in scope.  A failed `constructEvent` returns
400 with no store access; a verified `payment_intent.succeeded` event marks
the order named by the intent's metadata paid/processing when it exists;
every verified event is answered with 200 `{received: true}`.  Note: in the
shipped module the identifier `stripe` is never bound at module scope, so
the real route's `stripe.webhooks.constructEvent` throws a ReferenceError
inside the try on every request and every delivery is answered 400 — the
verification-failure branch; `webhookRoute` below is the faithful model of
the route as shipped. -/
def webhookHandler (secret : String) (body : WebhookEvent)
    (sig : Option String) (db : Db) : HttpResponse × Db :=
  match constructEvent secret body sig with
  | Except.error _ => ({ status := 400 }, db)
  | Except.ok event =>
    if event.type = "payment_intent.succeeded" then
      match db event.intent.metadataOrderId with
      | some order =>
        ({ status := 200 },
         dbSave db { order with paymentStatus := PaymentStatus.paid,
                                orderStatus := OrderStatus.processing })
      | none => ({ status := 200 }, db)
    else ({ status := 200 }, db)

/-- `POST /payments/webhook` as shipped (src/unnamed/part_001 lines
77–101): `stripe` is unbound at module scope, so line 82's
`stripe.webhooks.constructEvent(...)` throws a ReferenceError inside the
try on every delivery, whatever the event and signature; the catch answers
400 before any store access, so no signature is ever verified and no order
is ever marked paid/processing. -/
def webhookRoute (_body : WebhookEvent) (_sig : Option String) (db : Db) :
    HttpResponse × Db :=
  ({ status := 400 }, db)

/-! ## Order creation (src/routes/orders.js lines 33–83) -/

/-- An entry of the request's `items` array: product id and requested
quantity. -/
structure ReqItem where
  productId : Nat
  quantity : ℚ
deriving DecidableEq, Repr

/-- The validation loop of order creation: for each requested item look the
product up; a missing or inactive product aborts the whole request;
otherwise capture the product's id, name and current price with the
requested quantity and accumulate `price * quantity` into the total. -/
def buildOrderItems (pdb : ProductDb) : List ReqItem → Option (List OrderItem × ℚ)
  | [] => some ([], 0)
  | it :: rest =>
    match pdb it.productId with
    | none => none
    | some p =>
      if p.isActive then
        match buildOrderItems pdb rest with
        | none => none
        | some (l, t) =>
          some (⟨p.id, p.name, p.price, it.quantity⟩ :: l, p.price * it.quantity + t)
      else none

/-- `String(n).padStart(6, '0')`. -/
def padStart (len : Nat) (c : Char) (s : String) : String :=
  if len ≤ s.length then s
  else String.mk (List.replicate (len - s.length) c) ++ s

/-- The fallback order number: `CSH-` followed by the zero-padded successor
of the current order count (`orderData.orderNumber` is never set beforehand,
so the fallback always runs). -/
def generateOrderNumber (count : Nat) : String :=
  "CSH-" ++ padStart 6 '0' (toString (count + 1))

/-- Modelled from the spec: the Order schema's creation defaults
(models/Order.js is not among the sources); per the data model an order
starts with payment status `pending`. -/
def defaultPaymentStatus : PaymentStatus := PaymentStatus.pending

/-- Modelled from the spec: the Order schema's creation default for the
order status (models/Order.js is not among the sources); the lifecycle
starts at `pending`. -/
def defaultOrderStatus : OrderStatus := OrderStatus.pending

/-- `POST /orders` (src/routes/orders.js lines 33–83).  Validates the items
and accumulates the total; on success builds the order document — owner or
guest info, captured items, the accumulated `totalAmount`, the generated
order number — saves it and responds 201.  A failed item validation
responds 400 with nothing created. -/
def createOrder (pdb : ProductDb) (userId : Option Nat) (guestInfo : Option String)
    (items : List ReqItem) (paymentMethod : PaymentMethod)
    (orderCount : Nat) (newId : Nat) (db : Db) : HttpResponse × Db :=
  match buildOrderItems pdb items with
  | none => ({ status := 400 }, db)
  | some (orderItems, totalAmount) =>
    let order : Order :=
      { id := newId
        user := userId
        guestInfo := match userId with | some _ => none | none => guestInfo
        items := orderItems
        totalAmount := totalAmount
        paymentMethod := paymentMethod
        paymentStatus := defaultPaymentStatus
        orderStatus := defaultOrderStatus
        paymentSlip := none
        stripePaymentIntent := none
        orderNumber := generateOrderNumber orderCount
        notes := none
        processedAt := none
        completedAt := none }
    ({ status := 201 }, dbSave db order)

/-! ## Payment-slip upload (src/routes/orders.js lines 17–30, 132–179) -/

/-- An uploaded multipart file as multer presents it: content type, size in
bytes, buffered content. -/
structure UploadedFile where
  mimetype : String
  size : Nat
  content : String
deriving DecidableEq, Repr

/-- The request the handler passes to `cloudinary.uploader.upload_stream`. -/
structure StorageRequest where
  resourceType : String
  folder : String
  publicId : String
deriving DecidableEq, Repr

/-- The object-storage result the handler reads (`result.secure_url`). -/
structure StorageResult where
  secureUrl : String
deriving DecidableEq, Repr

/-- The multer `fileFilter` (src/routes/orders.js lines 23–29): accept
exactly the files whose mimetype starts with `image/`
(`file.mimetype.startsWith('image/')`). -/
def fileFilterAccepts (f : UploadedFile) : Bool :=
  List.isPrefixOf "image/".toList f.mimetype.toList

/-- The multer `fileSize` limit: 5MB (src/routes/orders.js line 21). -/
def multerLimit : Nat := 5 * 1024 * 1024

/-- The multer middleware for `upload.single('paymentSlip')`: a present file
is rejected with an error when the filter refuses it or it exceeds the size
limit; otherwise it (or its absence) is handed to the route handler. -/
def multerSingle (file : Option UploadedFile) : Except String (Option UploadedFile) :=
  match file with
  | none => Except.ok none
  | some f =>
    if fileFilterAccepts f then
      if f.size ≤ multerLimit then Except.ok (some f)
      else Except.error "File too large"
    else Except.error "Only image files are allowed"

/-- Modelled from the spec: the global error-handling middleware
(middleware/errorHandler.js is not among the sources) answers an error
passed down by middleware with a JSON message and a server-error status. -/
def errorHandlerStatus : Nat := 500

/-- Result of the payment-slip route: response, updated order store, and
the list of object-storage upload calls made. -/
structure SlipResult where
  response : HttpResponse
  db : Db
  storageCalls : List StorageRequest

/-- The `POST /orders/:id/payment-slip` handler body (src/routes/orders.js
lines 132–179), reached only after multer: 404 for a missing order, 400 for
a non-bank-transfer order or a missing file; otherwise uploads the buffer to
object storage under `slip_<orderNumber>_<timestamp>`, records the returned
URL and upload time on the order, sets payment status to `pending` and
saves.  A storage error is caught as 500 with no store write. -/
def uploadPaymentSlipHandler (storageUpload : StorageRequest → Except String StorageResult)
    (orderId : Nat) (file : Option UploadedFile) (now : Nat) (db : Db) : SlipResult :=
  match db orderId with
  | none => ⟨{ status := 404 }, db, []⟩
  | some order =>
    if order.paymentMethod ≠ PaymentMethod.bank_transfer then ⟨{ status := 400 }, db, []⟩
    else
      match file with
      | none => ⟨{ status := 400 }, db, []⟩
      | some _ =>
        let req : StorageRequest :=
          ⟨"image", "payment-slips", "slip_" ++ order.orderNumber ++ "_" ++ toString now⟩
        match storageUpload req with
        | Except.error _ => ⟨{ status := 500 }, db, [req]⟩
        | Except.ok result =>
          let order2 := { order with
            paymentSlip := some ⟨result.secureUrl, now⟩,
            paymentStatus := PaymentStatus.pending }
          ⟨{ status := 200 }, dbSave db order2, [req]⟩

/-- The full `POST /orders/:id/payment-slip` pipeline: multer first; a
multer rejection goes to the error middleware and the handler never runs. -/
def paymentSlipRoute (storageUpload : StorageRequest → Except String StorageResult)
    (orderId : Nat) (rawFile : Option UploadedFile) (now : Nat) (db : Db) : SlipResult :=
  match multerSingle rawFile with
  | Except.error _ => ⟨{ status := errorHandlerStatus }, db, []⟩
  | Except.ok file => uploadPaymentSlipHandler storageUpload orderId file now db

/-! ## Admin order routes (src/routes/admin.js lines 231–262, 296–317) -/

/-- `PUT /admin/orders/:id/status` (src/routes/admin.js lines 231–262).
Builds an update from whichever of `orderStatus` / `paymentStatus` the
request supplies, stamps `processedAt` / `completedAt` for the
corresponding order statuses, and applies it with `findByIdAndUpdate`. -/
def adminUpdateOrderStatus (orderId : Nat) (reqOrderStatus : Option OrderStatus)
    (reqPaymentStatus : Option PaymentStatus) (now : Nat) (db : Db) :
    HttpResponse × Db :=
  match db orderId with
  | none => ({ status := 404 }, db)
  | some order =>
    let o1 := match reqOrderStatus with
      | some s => { order with orderStatus := s }
      | none => order
    let o2 := match reqPaymentStatus with
      | some p => { o1 with paymentStatus := p }
      | none => o1
    let o3 :=
      if reqOrderStatus = some OrderStatus.processing then { o2 with processedAt := some now }
      else if reqOrderStatus = some OrderStatus.completed then { o2 with completedAt := some now }
      else o2
    ({ status := 200 }, dbSave db o3)

/-- `PUT /admin/payment-slips/:id/verify` (src/routes/admin.js lines
296–317).  Sets payment status to `paid` when approved and `failed`
otherwise, records optional notes, and saves. -/
def verifyPaymentSlip (orderId : Nat) (approved : Bool) (notes : Option String)
    (db : Db) : HttpResponse × Db :=
  match db orderId with
  | none => ({ status := 404 }, db)
  | some order =>
    let o1 := { order with
      paymentStatus := if approved then PaymentStatus.paid else PaymentStatus.failed }
    let o2 := match notes with
      | some n => { o1 with notes := some n }
      | none => o1
    ({ status := 200 }, dbSave db o2)

/-! ## Product rating (src/unnamed/part_000 lines 211–234) -/

/-- `POST /products/:id/rate` (src/unnamed/part_000 lines 211–234).  A
missing rating (`!rating`, which also catches 0) or one outside [1,5] is a
400 with no change; a missing or inactive product is a 404; otherwise the
running average is recomputed as `((prevAvg * prevCount) + rating) /
(prevCount + 1)` with the count incremented, and the product saved. -/
def rateProduct (rating : Option ℚ) (productId : Nat) (pdb : ProductDb) :
    HttpResponse × ProductDb :=
  match rating with
  | none => ({ status := 400 }, pdb)
  | some r =>
    if r = 0 ∨ r < 1 ∨ r > 5 then ({ status := 400 }, pdb)
    else
      match pdb productId with
      | none => ({ status := 404 }, pdb)
      | some p =>
        if p.isActive then
          let prevAvg := p.ratingAverage
          let prevCount := p.ratingCount
          let newCount := prevCount + 1
          let newAvg := (prevAvg * (prevCount : ℚ) + r) / (newCount : ℚ)
          ({ status := 200 },
           pdbSave pdb { p with ratingAverage := newAvg, ratingCount := newCount })
        else ({ status := 404 }, pdb)

/-! ## Contact form (src/routes/contact.js lines 8–105) -/

/-- A contact-form submission; absent fields arrive as empty strings
(JavaScript falsy check `!name || !email || !subject || !message`). -/
structure ContactRequest where
  name : String
  email : String
  phone : Option String
  subject : String
  message : String
  company : Option String
deriving DecidableEq, Repr

/-- Split a character list at each `@`. -/
def splitOnAt (l : List Char) (acc : List Char) : List (List Char) :=
  match l with
  | [] => [acc.reverse]
  | x :: xs => if x = '@' then acc.reverse :: splitOnAt xs [] else splitOnAt xs (x :: acc)

/-- One piece of the email regex `/^[^\s@]+@[^\s@]+\.[^\s@]+$/`: a nonempty
run of characters that are neither whitespace nor `@`. -/
def emailAtomOk (s : List Char) : Bool :=
  !s.isEmpty && s.all (fun c => !c.isWhitespace && c ≠ '@')

/-- The email validation regex of the contact route
(`/^[^\s@]+@[^\s@]+\.[^\s@]+$/`): exactly one `@`; a nonempty local part
without whitespace or `@`; a domain likewise, containing a dot with at
least one character on each side. -/
def emailValid (e : String) : Bool :=
  match splitOnAt e.toList [] with
  | [l, d] => emailAtomOk l && emailAtomOk d && ((d.drop 1).dropLast.contains '.')
  | _ => false

/-- `POST /contact` (src/routes/contact.js lines 8–105) as shipped.
Missing required fields or a malformed email are a 400.  Otherwise line 26
calls `nodemailer.createTransporter(...)` — no such method exists on
nodemailer (its API is `createTransport`) — so the call raises a TypeError
before any mail is attempted; the error is raised outside the inner
email try/catch, reaches the route's outer catch (lines 99–104), and every
valid submission is answered 500 with no mail handed to a transporter. -/
def contactRoute (req : ContactRequest) : HttpResponse :=
  if req.name = "" ∨ req.email = "" ∨ req.subject = "" ∨ req.message = "" then
    { status := 400 }
  else if ¬ emailValid req.email then { status := 400 }
  else { status := 500 }

/-! ## The paid-never-back-to-pending relation (claim C1) -/

/-- Between two snapshots of the order store: no order that was `paid`
before is `pending` after. -/
def noPaidToPending (db db2 : Db) : Prop :=
  ∀ i o o2, db i = some o → db2 i = some o2 →
    o.paymentStatus = PaymentStatus.paid → o2.paymentStatus ≠ PaymentStatus.pending

/-! ## Concrete fixtures used by witnesses and counterexamples -/

/-- A gateway intent used by concrete instances. -/
def sampleIntent : PaymentIntent :=
  ⟨"pi_1", "cs_1", "succeeded", 1⟩

/-- A `payment_intent.succeeded` webhook event carrying `sampleIntent`. -/
def sampleEvent : WebhookEvent :=
  ⟨"payment_intent.succeeded", sampleIntent⟩

/-- A bank-transfer order, already paid, stored under id 1. -/
def paidOrder : Order :=
  { id := 1, user := some 7, guestInfo := none, items := [], totalAmount := 49
    paymentMethod := PaymentMethod.bank_transfer
    paymentStatus := PaymentStatus.paid
    orderStatus := OrderStatus.processing
    paymentSlip := none, stripePaymentIntent := none
    orderNumber := "CSH-000001", notes := none
    processedAt := none, completedAt := none }

/-- A store holding exactly `paidOrder`. -/
def sampleDb : Db := fun i => if i = 1 then some paidOrder else none

/-- The empty order store. -/
def emptyDb : Db := fun _ => none

/-- A card order still awaiting payment, stored under id 1. -/
def pendingOrder : Order :=
  { paidOrder with paymentMethod := PaymentMethod.card,
                   paymentStatus := PaymentStatus.pending,
                   orderStatus := OrderStatus.pending }

/-- A store holding exactly `pendingOrder`. -/
def pendingDb : Db := fun i => if i = 1 then some pendingOrder else none

/-! ## Claim theorems -/

/-- Helper: a store is in the `noPaidToPending` relation with itself. -/
lemma noPaidToPending_refl (db : Db) : noPaidToPending db db := by
  intro i o o2 h1 h2 h3
  rw [h1] at h2
  cases h2
  rw [h3]
  intro h
  cases h

/-- Helper: saving one document whose payment status is not `pending`
preserves `noPaidToPending`. -/
lemma noPaidToPending_save (db : Db) (o : Order)
    (h : o.paymentStatus ≠ PaymentStatus.pending) :
    noPaidToPending db (dbSave db o) := by
  intro i o1 o2 h1 h2 h3
  unfold dbSave at h2
  by_cases hi : i = o.id
  · rw [if_pos hi] at h2
    cases h2
    exact h
  · rw [if_neg hi] at h2
    rw [h1] at h2
    cases h2
    rw [h3]
    intro hc
    cases hc

/-- C2: a webhook whose signature header is missing, or does not verify
against the signing secret, is answered with status 400 and the order store
is left untouched. -/
theorem webhook_bad_signature_rejected (secret : String) (body : WebhookEvent)
    (sig : Option String) (db : Db)
    (h : sig = none ∨ ∃ s, sig = some s ∧ s ≠ expectedSignature secret body) :
    (webhookHandler secret body sig db).1.status = 400 ∧
      (webhookHandler secret body sig db).2 = db := by
  rcases h with h | ⟨s, hs, hne⟩
  · subst h
    exact ⟨rfl, rfl⟩
  · subst hs
    simp [webhookHandler, constructEvent, hne]

/-- Witness for C2: a missing signature header on a succeeded-intent event
over the store holding a paid order. -/
theorem webhook_bad_signature_rejected_witness :
    (webhookHandler "whsec_1" sampleEvent none sampleDb).1.status = 400 ∧
      (webhookHandler "whsec_1" sampleEvent none sampleDb).2 = sampleDb :=
  webhook_bad_signature_rejected "whsec_1" sampleEvent none sampleDb (Or.inl rfl)

/-- C7: a failing gateway call surfaces as a 500 error response, leaves the
order store exactly as it was, and is attempted exactly once — for both the
create-payment-intent and the confirm-payment handlers. -/
theorem gateway_failure_surfaces_unchanged :
    (∀ (gateway : IntentRequest → Except String PaymentIntent) (userId orderId : Nat)
        (db : Db) (order : Order) (e : String),
        db orderId = some order → order.user = some userId →
        gateway (intentRequestFor order) = Except.error e →
        (createPaymentIntent gateway userId orderId db).response.status = 500 ∧
        (createPaymentIntent gateway userId orderId db).db = db ∧
        (createPaymentIntent gateway userId orderId db).gatewayCalls =
          [intentRequestFor order]) ∧
    (∀ (retrieve : String → Except String PaymentIntent) (intentId : String)
        (db : Db) (e : String),
        retrieve intentId = Except.error e →
        (confirmPayment retrieve intentId db).response.status = 500 ∧
        (confirmPayment retrieve intentId db).db = db ∧
        (confirmPayment retrieve intentId db).retrieveCalls = [intentId]) := by
  constructor
  · intro gateway userId orderId db order e ho hu hg
    simp [createPaymentIntent, ho, hu, hg]
  · intro retrieve intentId db e hr
    simp [confirmPayment, hr]

/-- Witness for C7: a gateway whose calls always fail, applied to a stored
owned order and to a retrieve call. -/
theorem gateway_failure_surfaces_unchanged_witness :
    ((createPaymentIntent (fun _ => Except.error "gateway down") 7 1 sampleDb).response.status = 500 ∧
     (createPaymentIntent (fun _ => Except.error "gateway down") 7 1 sampleDb).db = sampleDb ∧
     (createPaymentIntent (fun _ => Except.error "gateway down") 7 1 sampleDb).gatewayCalls =
       [intentRequestFor paidOrder]) ∧
    ((confirmPayment (fun _ => Except.error "gateway down") "pi_1" sampleDb).response.status = 500 ∧
     (confirmPayment (fun _ => Except.error "gateway down") "pi_1" sampleDb).db = sampleDb ∧
     (confirmPayment (fun _ => Except.error "gateway down") "pi_1" sampleDb).retrieveCalls = ["pi_1"]) :=
  ⟨gateway_failure_surfaces_unchanged.1 (fun _ => Except.error "gateway down") 7 1 sampleDb
      paidOrder "gateway down" rfl rfl rfl,
   gateway_failure_surfaces_unchanged.2 (fun _ => Except.error "gateway down") "pi_1" sampleDb
      "gateway down" rfl⟩

/-- C6: when the order exists, is owned by the caller and the gateway
accepts, the intent is created for `round(totalAmount * 100)` minor units
with the order's id and order number as metadata, the intent id is stored on
the order, and the response carries the client secret and intent id. -/
theorem create_intent_amount_metadata
    (gateway : IntentRequest → Except String PaymentIntent) (userId orderId : Nat)
    (db : Db) (order : Order) (intent : PaymentIntent)
    (ho : db orderId = some order) (hu : order.user = some userId)
    (hg : gateway (intentRequestFor order) = Except.ok intent) :
    (createPaymentIntent gateway userId orderId db).gatewayCalls =
      [{ amount := round (order.totalAmount * 100), currency := "usd",
         metadataOrderId := order.id, metadataOrderNumber := order.orderNumber }] ∧
    (createPaymentIntent gateway userId orderId db).db order.id =
      some { order with stripePaymentIntent := some intent.id } ∧
    (createPaymentIntent gateway userId orderId db).response =
      { status := 200, clientSecret := some intent.clientSecret,
        paymentIntentId := some intent.id } := by
  have hg2 : gateway { amount := round (order.totalAmount * 100), currency := "usd",
                       metadataOrderId := order.id,
                       metadataOrderNumber := order.orderNumber } =
      Except.ok intent := hg
  simp [createPaymentIntent, ho, hu, hg2, intentRequestFor, dbSave]

/-- Witness for C6: a concrete owned order of total 49 and an accepting
gateway. -/
theorem create_intent_amount_metadata_witness :
    (createPaymentIntent (fun _ => Except.ok sampleIntent) 7 1 sampleDb).gatewayCalls =
      [{ amount := round (paidOrder.totalAmount * 100), currency := "usd",
         metadataOrderId := paidOrder.id, metadataOrderNumber := paidOrder.orderNumber }] ∧
    (createPaymentIntent (fun _ => Except.ok sampleIntent) 7 1 sampleDb).db paidOrder.id =
      some { paidOrder with stripePaymentIntent := some sampleIntent.id } ∧
    (createPaymentIntent (fun _ => Except.ok sampleIntent) 7 1 sampleDb).response =
      { status := 200, clientSecret := some sampleIntent.clientSecret,
        paymentIntentId := some sampleIntent.id } :=
  create_intent_amount_metadata (fun _ => Except.ok sampleIntent) 7 1 sampleDb
    paidOrder sampleIntent rfl rfl rfl

/-- A catalog product used by concrete instances: average 4 over 2
ratings. -/
def sampleProduct : Product :=
  ⟨10, "CeylonApp", 19, true, 4, 2⟩

/-- A product store holding exactly `sampleProduct`. -/
def sampleProductDb : ProductDb := fun i => if i = 10 then some sampleProduct else none

/-- C5: a rating r with 1 ≤ r ≤ 5 on an existing active product of average a
and count c stores average `(a*c + r)/(c+1)` and count `c+1`; a missing or
out-of-range rating is a 400 that changes nothing. -/
theorem rate_product_updates_average :
    (∀ (r : ℚ) (productId : Nat) (pdb : ProductDb) (p : Product),
        1 ≤ r → r ≤ 5 → pdb productId = some p → p.isActive = true →
        (rateProduct (some r) productId pdb).1.status = 200 ∧
        (rateProduct (some r) productId pdb).2 p.id =
          some { p with
            ratingAverage :=
              (p.ratingAverage * (p.ratingCount : ℚ) + r) / ((p.ratingCount : ℚ) + 1),
            ratingCount := p.ratingCount + 1 }) ∧
    (∀ (rating : Option ℚ) (productId : Nat) (pdb : ProductDb),
        (rating = none ∨ ∃ r, rating = some r ∧ (r < 1 ∨ r > 5)) →
        (rateProduct rating productId pdb).1.status = 400 ∧
        (rateProduct rating productId pdb).2 = pdb) := by
  constructor
  · intro r productId pdb p h1 h5 hp ha
    have hcond : ¬(r = 0 ∨ r < 1 ∨ r > 5) := by
      push_neg
      refine ⟨?_, h1, h5⟩
      intro h0
      rw [h0] at h1
      norm_num at h1
    have hcast : ((p.ratingCount + 1 : Nat) : ℚ) = (p.ratingCount : ℚ) + 1 := by
      push_cast
      ring
    simp [rateProduct, hcond, hp, ha, pdbSave, hcast]
  · intro rating productId pdb h
    rcases h with h | ⟨r, hr, hlt⟩
    · subst h
      exact ⟨rfl, rfl⟩
    · subst hr
      have hcond : r = 0 ∨ r < 1 ∨ r > 5 := Or.inr hlt
      simp [rateProduct, hcond]

/-- Witness for C5: rating 5 on `sampleProduct` (average 4 over 2) and a
rejected missing rating. -/
theorem rate_product_updates_average_witness :
    ((rateProduct (some 5) 10 sampleProductDb).1.status = 200 ∧
     (rateProduct (some 5) 10 sampleProductDb).2 sampleProduct.id =
       some { sampleProduct with
         ratingAverage :=
           (sampleProduct.ratingAverage * (sampleProduct.ratingCount : ℚ) + 5) /
             ((sampleProduct.ratingCount : ℚ) + 1),
         ratingCount := sampleProduct.ratingCount + 1 }) ∧
    ((rateProduct none 10 sampleProductDb).1.status = 400 ∧
     (rateProduct none 10 sampleProductDb).2 = sampleProductDb) :=
  ⟨rate_product_updates_average.1 5 10 sampleProductDb sampleProduct
      (by norm_num) (by norm_num) rfl rfl,
   rate_product_updates_average.2 none 10 sampleProductDb (Or.inl rfl)⟩

/-- Helper: the total accumulated by the order-creation validation loop
equals the sum of `price * quantity` over the captured line items. -/
lemma buildOrderItems_total (pdb : ProductDb) :
    ∀ (items : List ReqItem) (l : List OrderItem) (t : ℚ),
      buildOrderItems pdb items = some (l, t) →
      t = (l.map (fun i => i.price * i.quantity)).sum := by
  intro items
  induction items with
  | nil =>
    intro l t h
    simp [buildOrderItems] at h
    obtain ⟨h1, h2⟩ := h
    subst h1
    subst h2
    simp
  | cons it rest ih =>
    intro l t h
    simp only [buildOrderItems] at h
    cases hp : pdb it.productId with
    | none => simp [hp] at h
    | some p =>
      simp only [hp] at h
      cases ha : p.isActive with
      | false => simp [ha] at h
      | true =>
        simp only [ha, if_true] at h
        cases hb : buildOrderItems pdb rest with
        | none => simp [hb] at h
        | some pair =>
          obtain ⟨l0, t0⟩ := pair
          rw [hb] at h
          simp only [Option.some.injEq, Prod.mk.injEq] at h
          obtain ⟨hl, htt⟩ := h
          subst hl
          subst htt
          simp [ih l0 t0 hb]

/-- Helper: when every requested product exists and is active, the
validation loop succeeds. -/
lemma buildOrderItems_total_exists (pdb : ProductDb) :
    ∀ (items : List ReqItem),
      (∀ it ∈ items, ∃ p, pdb it.productId = some p ∧ p.isActive = true) →
      ∃ l t, buildOrderItems pdb items = some (l, t) := by
  intro items
  induction items with
  | nil =>
    intro _
    exact ⟨[], 0, rfl⟩
  | cons it rest ih =>
    intro h
    obtain ⟨p, hp, ha⟩ := h it (by simp)
    obtain ⟨l, t, hb⟩ := ih (fun x hx => h x (by simp [hx]))
    exact ⟨⟨p.id, p.name, p.price, it.quantity⟩ :: l, p.price * it.quantity + t,
      by simp [buildOrderItems, hp, ha, hb]⟩

/-- C4: when every referenced product exists and is active, order creation
succeeds with 201 and the stored order's `totalAmount` equals the sum over
its line items of the captured price times the requested quantity. -/
theorem order_total_is_sum (pdb : ProductDb) (userId : Option Nat)
    (guestInfo : Option String) (items : List ReqItem) (pm : PaymentMethod)
    (orderCount newId : Nat) (db : Db)
    (h : ∀ it ∈ items, ∃ p, pdb it.productId = some p ∧ p.isActive = true) :
    (createOrder pdb userId guestInfo items pm orderCount newId db).1.status = 201 ∧
    ∃ o, (createOrder pdb userId guestInfo items pm orderCount newId db).2 newId = some o ∧
      o.totalAmount = (o.items.map (fun i => i.price * i.quantity)).sum := by
  obtain ⟨l, t, hb⟩ := buildOrderItems_total_exists pdb items h
  have ht := buildOrderItems_total pdb items l t hb
  refine ⟨by simp [createOrder, hb], ?_⟩
  refine ⟨{ id := newId, user := userId,
            guestInfo := match userId with | some _ => none | none => guestInfo,
            items := l, totalAmount := t, paymentMethod := pm,
            paymentStatus := defaultPaymentStatus, orderStatus := defaultOrderStatus,
            paymentSlip := none, stripePaymentIntent := none,
            orderNumber := generateOrderNumber orderCount, notes := none,
            processedAt := none, completedAt := none }, ?_, ?_⟩
  · simp [createOrder, hb, dbSave]
  · simpa using ht

/-- Witness for C4: a two-item order over a one-product catalog. -/
theorem order_total_is_sum_witness :
    (createOrder sampleProductDb (some 7) none [⟨10, 2⟩, ⟨10, 1⟩]
        PaymentMethod.card 0 3 emptyDb).1.status = 201 ∧
    ∃ o, (createOrder sampleProductDb (some 7) none [⟨10, 2⟩, ⟨10, 1⟩]
        PaymentMethod.card 0 3 emptyDb).2 3 = some o ∧
      o.totalAmount = (o.items.map (fun i => i.price * i.quantity)).sum :=
  order_total_is_sum sampleProductDb (some 7) none [⟨10, 2⟩, ⟨10, 1⟩]
    PaymentMethod.card 0 3 emptyDb
    (by
      intro it hit
      refine ⟨sampleProduct, ?_, rfl⟩
      simp only [List.mem_cons, List.mem_singleton, List.not_mem_nil, or_false] at hit
      rcases hit with rfl | rfl <;> rfl)

/-- C8: a file whose content type is no image format never reaches object
storage — the pipeline makes no storage call, leaves the store untouched
and does not answer 200; an image file over the 5MB cap is likewise
rejected before storage. -/
theorem slip_upload_rejects_non_image :
    (∀ (storageUpload : StorageRequest → Except String StorageResult)
        (orderId : Nat) (f : UploadedFile) (now : Nat) (db : Db),
        fileFilterAccepts f = false →
        (paymentSlipRoute storageUpload orderId (some f) now db).storageCalls = [] ∧
        (paymentSlipRoute storageUpload orderId (some f) now db).db = db ∧
        (paymentSlipRoute storageUpload orderId (some f) now db).response.status ≠ 200) ∧
    (∀ (storageUpload : StorageRequest → Except String StorageResult)
        (orderId : Nat) (f : UploadedFile) (now : Nat) (db : Db),
        fileFilterAccepts f = true → multerLimit < f.size →
        (paymentSlipRoute storageUpload orderId (some f) now db).storageCalls = [] ∧
        (paymentSlipRoute storageUpload orderId (some f) now db).db = db ∧
        (paymentSlipRoute storageUpload orderId (some f) now db).response.status ≠ 200) := by
  constructor
  · intro s orderId f now db hf
    simp [paymentSlipRoute, multerSingle, hf, errorHandlerStatus]
  · intro s orderId f now db hf hsize
    have hns : ¬ (f.size ≤ multerLimit) := not_le.mpr hsize
    simp [paymentSlipRoute, multerSingle, hf, hns, errorHandlerStatus]

/-- Witness for C8: a PDF upload and an oversized image upload against the
store holding a bank-transfer order. -/
theorem slip_upload_rejects_non_image_witness :
    ((paymentSlipRoute (fun _ => Except.ok ⟨"https://cdn/x.png"⟩) 1
        (some ⟨"application/pdf", 100, "pdfbytes"⟩) 9 sampleDb).storageCalls = [] ∧
     (paymentSlipRoute (fun _ => Except.ok ⟨"https://cdn/x.png"⟩) 1
        (some ⟨"application/pdf", 100, "pdfbytes"⟩) 9 sampleDb).db = sampleDb ∧
     (paymentSlipRoute (fun _ => Except.ok ⟨"https://cdn/x.png"⟩) 1
        (some ⟨"application/pdf", 100, "pdfbytes"⟩) 9 sampleDb).response.status ≠ 200) ∧
    ((paymentSlipRoute (fun _ => Except.ok ⟨"https://cdn/x.png"⟩) 1
        (some ⟨"image/png", 6 * 1024 * 1024, "pngbytes"⟩) 9 sampleDb).storageCalls = [] ∧
     (paymentSlipRoute (fun _ => Except.ok ⟨"https://cdn/x.png"⟩) 1
        (some ⟨"image/png", 6 * 1024 * 1024, "pngbytes"⟩) 9 sampleDb).db = sampleDb ∧
     (paymentSlipRoute (fun _ => Except.ok ⟨"https://cdn/x.png"⟩) 1
        (some ⟨"image/png", 6 * 1024 * 1024, "pngbytes"⟩) 9 sampleDb).response.status ≠ 200) :=
  ⟨slip_upload_rejects_non_image.1 (fun _ => Except.ok ⟨"https://cdn/x.png"⟩) 1
      ⟨"application/pdf", 100, "pdfbytes"⟩ 9 sampleDb (by decide),
   slip_upload_rejects_non_image.2 (fun _ => Except.ok ⟨"https://cdn/x.png"⟩) 1
      ⟨"image/png", 6 * 1024 * 1024, "pngbytes"⟩ 9 sampleDb (by decide) (by decide)⟩

/-- An object-storage collaborator that always succeeds. -/
def okStorage : StorageRequest → Except String StorageResult :=
  fun _ => Except.ok ⟨"https://res.cloudinary.com/payment-slips/slip1.png"⟩

/-- A small PNG payment-slip upload. -/
def slipFile : UploadedFile := ⟨"image/png", 2048, "pngbytes"⟩

/-- Counterexample to C1 as stated: order 1 is paid, yet uploading a
payment slip to it moves its payment status back to `pending`. -/
theorem paid_regresses_to_pending_on_slip_upload :
    (sampleDb 1).map Order.paymentStatus = some PaymentStatus.paid ∧
    ((paymentSlipRoute okStorage 1 (some slipFile) 99 sampleDb).db 1).map
        Order.paymentStatus = some PaymentStatus.pending := by
  exact ⟨rfl, rfl⟩

/-- C1 (amended): webhook handling, payment confirmation and admin
payment-slip verification never move a paid order's payment status back to
`pending`; but the payment-slip upload sets payment status `pending` on
every successful upload — even on an already paid order — and the admin
order-status update writes whatever payment status the request supplies,
including `pending`. -/
theorem payment_status_forward_amended :
    (∀ (secret : String) (body : WebhookEvent) (sig : Option String) (db : Db),
        noPaidToPending db (webhookHandler secret body sig db).2) ∧
    (∀ (retrieve : String → Except String PaymentIntent) (intentId : String) (db : Db),
        noPaidToPending db (confirmPayment retrieve intentId db).db) ∧
    (∀ (orderId : Nat) (approved : Bool) (notes : Option String) (db : Db),
        noPaidToPending db (verifyPaymentSlip orderId approved notes db).2) ∧
    (∀ (storageUpload : StorageRequest → Except String StorageResult)
        (orderId : Nat) (rawFile : Option UploadedFile) (now : Nat) (db : Db) (order : Order),
        db orderId = some order →
        (paymentSlipRoute storageUpload orderId rawFile now db).response.status = 200 →
        ((paymentSlipRoute storageUpload orderId rawFile now db).db order.id).map
          Order.paymentStatus = some PaymentStatus.pending) ∧
    (∀ (orderId : Nat) (reqOrderStatus : Option OrderStatus) (now : Nat) (db : Db)
        (order : Order),
        db orderId = some order →
        ((adminUpdateOrderStatus orderId reqOrderStatus (some PaymentStatus.pending) now db).2
            order.id).map Order.paymentStatus = some PaymentStatus.pending) := by
  refine ⟨?_, ?_, ?_, ?_, ?_⟩
  · intro secret body sig db
    unfold webhookHandler
    cases hE : constructEvent secret body sig with
    | error e => exact noPaidToPending_refl db
    | ok event =>
      simp only [hE]
      by_cases ht : event.type = "payment_intent.succeeded"
      · rw [if_pos ht]
        cases ho : db event.intent.metadataOrderId with
        | none => exact noPaidToPending_refl db
        | some o =>
          simp only [ho]
          exact noPaidToPending_save db _ (by simp)
      · rw [if_neg ht]
        exact noPaidToPending_refl db
  · intro retrieve intentId db
    unfold confirmPayment
    cases hr : retrieve intentId with
    | error e => exact noPaidToPending_refl db
    | ok intent =>
      simp only [hr]
      by_cases hst : intent.status = "succeeded"
      · rw [if_pos hst]
        cases ho : db intent.metadataOrderId with
        | none => exact noPaidToPending_refl db
        | some o =>
          simp only [ho]
          exact noPaidToPending_save db _ (by simp)
      · rw [if_neg hst]
        exact noPaidToPending_refl db
  · intro orderId approved notes db
    unfold verifyPaymentSlip
    cases ho : db orderId with
    | none => exact noPaidToPending_refl db
    | some o =>
      simp only [ho]
      apply noPaidToPending_save
      cases notes <;> cases approved <;> simp
  · intro storageUpload orderId rawFile now db order ho hs
    cases rawFile with
    | none =>
      have hst : (paymentSlipRoute storageUpload orderId none now db).response.status ≠ 200 := by
        unfold paymentSlipRoute multerSingle uploadPaymentSlipHandler
        simp only [ho]
        by_cases hpm : order.paymentMethod ≠ PaymentMethod.bank_transfer
        · rw [if_pos hpm]
          simp
        · rw [if_neg hpm]
          simp
      exact absurd hs hst
    | some f =>
      by_cases hacc : fileFilterAccepts f
      · by_cases hsize : f.size ≤ multerLimit
        · by_cases hpm : order.paymentMethod ≠ PaymentMethod.bank_transfer
          · have hbad : (paymentSlipRoute storageUpload orderId (some f) now db).response.status = 400 := by
              simp [paymentSlipRoute, multerSingle, hacc, hsize,
                    uploadPaymentSlipHandler, ho, hpm]
            rw [hbad] at hs
            exact absurd hs (by decide)
          · cases hst : storageUpload ⟨"image", "payment-slips",
                "slip_" ++ order.orderNumber ++ "_" ++ toString now⟩ with
            | error e =>
              have hbad : (paymentSlipRoute storageUpload orderId (some f) now db).response.status = 500 := by
                simp [paymentSlipRoute, multerSingle, hacc, hsize,
                      uploadPaymentSlipHandler, ho, hpm, hst]
              rw [hbad] at hs
              exact absurd hs (by decide)
            | ok r =>
              have hroute : (paymentSlipRoute storageUpload orderId (some f) now db).db =
                  dbSave db { order with
                    paymentSlip := some ⟨r.secureUrl, now⟩,
                    paymentStatus := PaymentStatus.pending } := by
                simp [paymentSlipRoute, multerSingle, hacc, hsize,
                      uploadPaymentSlipHandler, ho, hpm, hst]
              rw [hroute]
              simp [dbSave]
        · have hbad : (paymentSlipRoute storageUpload orderId (some f) now db).response.status =
              errorHandlerStatus := by
            simp [paymentSlipRoute, multerSingle, hacc, hsize]
          rw [hbad] at hs
          exact absurd hs (by decide)
      · have hbad : (paymentSlipRoute storageUpload orderId (some f) now db).response.status =
            errorHandlerStatus := by
          simp [paymentSlipRoute, multerSingle, hacc]
        rw [hbad] at hs
        exact absurd hs (by decide)
  · intro orderId reqOrderStatus now db order ho
    unfold adminUpdateOrderStatus
    simp only [ho]
    cases reqOrderStatus with
    | none => simp [dbSave]
    | some s => cases s <;> simp [dbSave]

/-- Witness for C1 (amended): the admin order-status update applied to the
paid order 1 with a supplied `pending` payment status leaves it pending. -/
theorem payment_status_forward_amended_witness :
    ((adminUpdateOrderStatus 1 none (some PaymentStatus.pending) 0 sampleDb).2
        paidOrder.id).map Order.paymentStatus = some PaymentStatus.pending :=
  payment_status_forward_amended.2.2.2.2 1 none 0 sampleDb paidOrder rfl

/-- C3 (code bug): the webhook route as shipped throws before verification
and answers 400 on every delivery, so processing the succeeded-intent event
for stored order 1 — once or twice — changes nothing and never reaches the
claimed paid/processing terminal state: the order stays pending/pending. -/
theorem webhook_route_never_reaches_paid :
    (webhookRoute sampleEvent (some (expectedSignature "whsec_1" sampleEvent))
        pendingDb).1.status = 400 ∧
    (webhookRoute sampleEvent (some (expectedSignature "whsec_1" sampleEvent))
        (webhookRoute sampleEvent (some (expectedSignature "whsec_1" sampleEvent))
          pendingDb).2).2 = pendingDb ∧
    ((webhookRoute sampleEvent (some (expectedSignature "whsec_1" sampleEvent))
        pendingDb).2 1).map Order.paymentStatus = some PaymentStatus.pending ∧
    ((webhookRoute sampleEvent (some (expectedSignature "whsec_1" sampleEvent))
        pendingDb).2 1).map Order.orderStatus = some OrderStatus.pending :=
  ⟨rfl, rfl, rfl, rfl⟩

/-- C10 (code bug): confirm-payment as shipped throws before the gateway
retrieve and answers 500 on every call — never 200 `{success: true}` — with
no retrieve attempted and no store write. -/
theorem confirm_route_always_error :
    (confirmPaymentRoute "pi_1" sampleDb).response.status = 500 ∧
    (confirmPaymentRoute "pi_1" sampleDb).response.success = none ∧
    (confirmPaymentRoute "pi_1" sampleDb).retrieveCalls = [] ∧
    (confirmPaymentRoute "pi_1" sampleDb).db = sampleDb :=
  ⟨rfl, rfl, rfl, rfl⟩

/-- C9 (code bug): a fully valid contact submission is answered 500, never
200, because the transporter construction fails unconditionally; an invalid
submission still gets its validation 400, so the failure is specific to the
post-validation path. -/
theorem contact_route_valid_submission_fails :
    (contactRoute ⟨"Alice", "alice@example.com", none, "Hi", "Hello there", none⟩).status = 500 ∧
    (contactRoute ⟨"Alice", "alice@example.com", none, "Hi", "Hello there", none⟩).status ≠ 200 ∧
    (contactRoute ⟨"", "alice@example.com", none, "Hi", "Hello there", none⟩).status = 400 :=
  ⟨rfl, by decide, rfl⟩

end CeylonHub
